import Mathlib

/-!
Shallow embedding of the North Indian chart layout engine of the
VedicJyotish repository (src/frontend/app/components/NorthIndianChart.tsx).

The component is a pure function of its props `data` (the chart-data
object, keyed by strings "house_1" .. "house_12") and `ascendantSign`
(a sign name).  We embed each constant table and helper of the source
and the element tree it produces, restricted to the positioned labels
(planet abbreviations and sign numbers) that the claims are about.

All coordinates are small nonnegative integers in the source's 0-100
SVG view box, so we use `Nat` for them.  SVG y grows downward, so a
larger y-offset means a lower label.
-/

namespace VedicJyotish

/-- A 2D point in the 100x100 SVG coordinate space. -/
structure Point where
  x : Nat
  y : Nat
deriving DecidableEq, Repr

/-- `SIGN_MAP`: the object literal mapping sign names to ordinals
(Aries=1 .. Pisces=12), embedded as an association list; a JS property
lookup on the object is `List.lookup` here. -/
def SIGN_MAP : List (String × Nat) :=
  [("Aries", 1), ("Taurus", 2), ("Gemini", 3), ("Cancer", 4),
   ("Leo", 5), ("Virgo", 6), ("Libra", 7), ("Scorpio", 8),
   ("Sagittarius", 9), ("Capricorn", 10), ("Aquarius", 11), ("Pisces", 12)]

/-- `HOUSE_CENTERS`: the fixed per-house anchor points for planet labels. -/
def HOUSE_CENTERS : List Point :=
  [⟨50, 20⟩, ⟨20, 10⟩, ⟨10, 20⟩, ⟨25, 50⟩, ⟨10, 80⟩, ⟨20, 90⟩,
   ⟨50, 80⟩, ⟨80, 90⟩, ⟨90, 80⟩, ⟨75, 50⟩, ⟨90, 20⟩, ⟨80, 10⟩]

/-- An entry of the `SIGN_POSITIONS` table: a point plus a text-anchor mode. -/
structure SignPos where
  x : Nat
  y : Nat
  anchor : String
deriving DecidableEq, Repr

/-- `SIGN_POSITIONS`: the table of corner positions for sign numbers as it
appears in the source.  It is never read by the render code (the sign-number
text elements are hard-coded instead) and it stops after ten entries. -/
def SIGN_POSITIONS : List SignPos :=
  [⟨50, 45, "middle"⟩, ⟨45, 5, "start"⟩, ⟨5, 45, "start"⟩, ⟨50, 55, "middle"⟩,
   ⟨5, 55, "start"⟩, ⟨45, 95, "start"⟩, ⟨50, 65, "middle"⟩, ⟨55, 95, "end"⟩,
   ⟨95, 55, "end"⟩, ⟨50, 45, "middle"⟩]

/-- A planet entry of the chart-data object; the render code reads only
its `name` field. -/
structure Planet where
  name : String
deriving DecidableEq, Repr

/-- A per-house entry of the chart-data object; `planets` is `none` when
the entry lacks a planet list. -/
structure HouseData where
  planets : Option (List Planet)
deriving DecidableEq, Repr

/-- The chart-data prop: a loosely shaped object read by string keys
"house_1" .. "house_12"; a missing key yields `none`. -/
def ChartData := String → Option HouseData

/-- `ascNum`, own-property part: `SIGN_MAP[ascendantSign] || 1` modelled as
a lookup among the object's own keys with default 1.  This is exact whenever
the name is one of the twelve keys, or is unrecognized and hits no inherited
`Object.prototype` member; but a JS property read also consults the prototype
chain, so for member names of `Object.prototype` (such as "constructor" or
"toString") the read is a truthy inherited value and the `||` does not
default.  The full read is `signMapRead` below; the claims using `ascNumOf`
stay on the twelve valid keys or do not depend on the sign numbers. -/
def ascNumOf (ascendantSign : String) : Nat :=
  (SIGN_MAP.lookup ascendantSign).getD 1

/-- The key string used to read house `houseIndex` (0-based) from the
chart-data object: the template literal `house_${houseIndex + 1}`. -/
def houseKey (houseIndex : Nat) : String :=
  "house_" ++ toString (houseIndex + 1)

/-- `p.name.substring(0, 2)`: the first two characters of the name, or
all of it when it is shorter. -/
def displayCode (name : String) : String :=
  String.mk (name.data.take 2)

/-- One rendered `tspan` for a planet: its `x` attribute, its relative
`dy` attribute, and its text content.  SVG offsets each `tspan` by `dy`
from the previous one, so absolute offsets are partial sums of `dy`. -/
structure PlanetLabel where
  x : Nat
  dy : Nat
  text : String
deriving DecidableEq, Repr

/-- `renderPlanets(houseIndex)`: looks up `house_${houseIndex+1}`; when the
entry or its planet list is missing it returns null (no labels); otherwise
it maps the planet list, with index, to `tspan`s anchored at the house
center's x, with `dy = i === 0 ? 0 : 12` and text `p.name.substring(0,2)`. -/
def renderPlanets (data : ChartData) (houseIndex : Nat) : List PlanetLabel :=
  match data (houseKey houseIndex) with
  | none => []
  | some houseData =>
    match houseData.planets with
    | none => []
    | some ps =>
      ps.enum.map fun ip =>
        { x := (HOUSE_CENTERS.getD houseIndex ⟨0, 0⟩).x
          dy := if ip.1 = 0 then 0 else 12
          text := displayCode ip.2.name }

/-- `getSignNum(houseIdx) = ((ascNum + houseIdx - 1) % 12) + 1`.  The JS
arithmetic is signed, but `ascNum` is always at least 1 (every `SIGN_MAP`
value is, and so is the default), so the dividend is nonnegative and `Nat`
subtraction and `%` agree with the source exactly on all reachable inputs. -/
def getSignNum (ascNum houseIdx : Nat) : Nat :=
  ((ascNum + houseIdx - 1) % 12) + 1

/-- Absolute vertical offsets of a run of `tspan`s from their relative `dy`
attributes, starting from accumulated offset `acc`: SVG places each `tspan`
`dy` below the previous one. -/
def tspanOffsets (acc : Nat) : List Nat → List Nat
  | [] => []
  | d :: ds => (acc + d) :: tspanOffsets (acc + d) ds

/-- One rendered `text` container for a house: the anchor point from
`HOUSE_CENTERS` and the planet `tspan`s inside it. -/
structure HouseBlock where
  x : Nat
  y : Nat
  planets : List PlanetLabel
deriving DecidableEq, Repr

/-- One rendered sign-number `text` element: its hard-coded position and
the sign number it shows. -/
structure SignLabel where
  x : Nat
  y : Nat
  num : Nat
deriving DecidableEq, Repr

/-- The labelled output of one render of the component: the twelve house
`text` containers (in `HOUSE_CENTERS` order) and the twelve sign-number
`text` elements (in house order).  The fixed background geometry (square,
diagonals, diamond) has no data dependence and is omitted. -/
structure ChartOutput where
  houseBlocks : List HouseBlock
  signLabels : List SignLabel
deriving DecidableEq, Repr

/-- The positions of the twelve hard-coded sign-number `text` elements in
the returned JSX, in house order (house 1 first).  These are the positions
actually rendered; the `SIGN_POSITIONS` table above is not consulted. -/
def SIGN_LABEL_POSITIONS : List Point :=
  [⟨50, 42⟩, ⟨15, 8⟩, ⟨5, 18⟩, ⟨40, 52⟩, ⟨5, 85⟩, ⟨15, 95⟩,
   ⟨50, 60⟩, ⟨85, 95⟩, ⟨95, 85⟩, ⟨60, 52⟩, ⟨95, 18⟩, ⟨85, 8⟩]

/-- The component body: computes `ascNum`, renders one `text` container per
`HOUSE_CENTERS` entry holding that house's planet `tspan`s, and the twelve
hard-coded sign-number `text` elements showing `getSignNum(0) .. getSignNum(11)`. -/
def NorthIndianChart (data : ChartData) (ascendantSign : String) : ChartOutput :=
  let ascNum := ascNumOf ascendantSign
  { houseBlocks :=
      HOUSE_CENTERS.enum.map fun ic =>
        { x := ic.2.x, y := ic.2.y, planets := renderPlanets data ic.1 }
    signLabels :=
      SIGN_LABEL_POSITIONS.enum.map fun ip =>
        { x := ip.2.x, y := ip.2.y, num := getSignNum ascNum ip.1 } }

/-- A chart-data object with no house entries at all, used as a concrete
input in witnesses. -/
def emptyChartData : ChartData := fun _ => none

/-- A chart-data object in which every house entry is present with an
empty planet list. -/
def allEmptyHouses : ChartData := fun _ => some ⟨some []⟩

/-- The member names of `Object.prototype` that a property read on a plain
object literal finds through the prototype chain when the object has no own
property of that name (standard members plus the Annex B accessor helpers
present in browsers and Node). -/
def OBJECT_PROTOTYPE_KEYS : List String :=
  ["constructor", "hasOwnProperty", "isPrototypeOf", "propertyIsEnumerable",
   "toLocaleString", "toString", "valueOf", "__proto__",
   "__defineGetter__", "__defineSetter__", "__lookupGetter__", "__lookupSetter__"]

/-- The outcome of the full JS property read `SIGN_MAP[s]`: an own numeric
value, an inherited `Object.prototype` member (a function or the prototype
object itself, always truthy and never numeric), or `undefined`. -/
inductive JSLookup where
  | ownNum (n : Nat)
  | proto (name : String)
  | undef
deriving DecidableEq, Repr

/-- The full JS property read `SIGN_MAP[s]`: own keys first, then the
prototype chain, then `undefined`. -/
def signMapRead (s : String) : JSLookup :=
  match SIGN_MAP.lookup s with
  | some n => JSLookup.ownNum n
  | none => if s ∈ OBJECT_PROTOTYPE_KEYS then JSLookup.proto s else JSLookup.undef

/-- The value of `ascNum` under the full read: either a sign ordinal (an own
value, or the `|| 1` default when the read was the falsy `undefined`), or a
truthy non-numeric inherited value that survives the `||` unchanged. -/
inductive AscValue where
  | ord (n : Nat)
  | nonNumeric (name : String)
deriving DecidableEq, Repr

/-- `SIGN_MAP[ascendantSign] || 1` under the full property read. -/
def ascValueOf (s : String) : AscValue :=
  match signMapRead s with
  | JSLookup.ownNum n => AscValue.ord n
  | JSLookup.proto nm => AscValue.nonNumeric nm
  | JSLookup.undef => AscValue.ord 1

/-- The text shown by a sign-number label under the full read.  On a numeric
`ascNum` it is the decimal rendering of `getSignNum`.  On a non-numeric
truthy `ascNum` (an inherited function or object), JS evaluates
`ascNum + houseIdx` as string concatenation, subtracting 1 from that
non-numeric string gives `NaN`, and `% 12` and `+ 1` keep it `NaN`, which
React renders as the text "NaN". -/
def signNumText (s : String) (houseIdx : Nat) : String :=
  match ascValueOf s with
  | AscValue.ord n => toString (getSignNum n houseIdx)
  | AscValue.nonNumeric _ => "NaN"

/-! ### Helper lemmas -/

theorem enumFrom_map_snd {α β : Type} (g : α → β) (n : Nat) (l : List α) :
    (List.enumFrom n l).map (fun ip => g ip.2) = l.map g := by
  induction l generalizing n with
  | nil => rfl
  | cons a t ih => simp [List.enumFrom, ih]

theorem enumFrom_map_fst {α β : Type} (g : Nat → β) (n : Nat) (l : List α) :
    (List.enumFrom n l).map (fun ip => g ip.1) = (List.range' n l.length).map g := by
  induction l generalizing n with
  | nil => rfl
  | cons a t ih => simp [List.enumFrom, List.range'_succ, ih]

theorem enumFrom_map_const {α β : Type} (b : β) (n : Nat) (l : List α) :
    (List.enumFrom n l).map (fun _ => b) = List.replicate l.length b := by
  induction l generalizing n with
  | nil => rfl
  | cons a t ih => simp [List.enumFrom, List.replicate_succ, ih]

theorem tspanOffsets_replicate (m : Nat) : ∀ a, tspanOffsets a (List.replicate m 12) =
    (List.range m).map (fun i => a + 12 * (i + 1)) := by
  induction m with
  | zero => intro a; rfl
  | succ k ih =>
    intro a
    rw [List.replicate_succ]
    show (a + 12) :: tspanOffsets (a + 12) (List.replicate k 12) = _
    rw [ih (a + 12), List.range_succ_eq_map]
    simp only [List.map_cons, List.map_map]
    refine List.cons_eq_cons.mpr ⟨by omega, ?_⟩
    apply List.map_congr_left
    intro i _
    simp [Function.comp]
    omega

theorem tspanOffsets_stacked (n : Nat) :
    tspanOffsets 0 ((List.range n).map (fun i => if i = 0 then 0 else 12)) =
    (List.range n).map (fun i => 12 * i) := by
  cases n with
  | zero => rfl
  | succ m =>
    rw [List.range_succ_eq_map]
    have h1 : ((0 :: (List.range m).map Nat.succ).map (fun i => if i = 0 then 0 else 12)) =
        0 :: List.replicate m 12 := by
      rw [List.map_cons, List.map_map]
      rw [show ((fun i => if i = 0 then 0 else 12) ∘ Nat.succ) = (fun (i : Nat) => (12 : Nat))
        from funext fun i => by simp [Function.comp]]
      simp [List.map_const']
    have h2 : ((0 :: (List.range m).map Nat.succ).map (fun i => 12 * i)) =
        0 :: (List.range m).map (fun i => 12 * (i + 1)) := by
      simp [List.map_map, Function.comp, Nat.succ_eq_add_one]
    rw [h1, h2]
    simp only [tspanOffsets, Nat.add_zero, Nat.zero_add]
    rw [tspanOffsets_replicate m 0]
    refine List.cons_eq_cons.mpr ⟨rfl, ?_⟩
    apply List.map_congr_left
    intro i _
    omega

theorem renderPlanets_present (d : ChartData) (h : Nat) (ps : List Planet)
    (hd : d (houseKey h) = some ⟨some ps⟩) :
    renderPlanets d h = ps.enum.map (fun ip =>
      { x := (HOUSE_CENTERS.getD h ⟨0, 0⟩).x
        dy := if ip.1 = 0 then 0 else 12
        text := displayCode ip.2.name : PlanetLabel }) := by
  simp [renderPlanets, hd]

theorem renderPlanets_texts (d : ChartData) (h : Nat) (ps : List Planet)
    (hd : d (houseKey h) = some ⟨some ps⟩) :
    (renderPlanets d h).map PlanetLabel.text = ps.map (fun p => displayCode p.name) := by
  rw [renderPlanets_present d h ps hd, List.map_map, List.enum]
  exact enumFrom_map_snd (fun p => displayCode p.name) 0 ps

theorem renderPlanets_xs (d : ChartData) (h : Nat) (ps : List Planet)
    (hd : d (houseKey h) = some ⟨some ps⟩) :
    (renderPlanets d h).map PlanetLabel.x =
      List.replicate ps.length (HOUSE_CENTERS.getD h ⟨0, 0⟩).x := by
  rw [renderPlanets_present d h ps hd, List.map_map, List.enum]
  exact enumFrom_map_const _ 0 ps

theorem renderPlanets_dys (d : ChartData) (h : Nat) (ps : List Planet)
    (hd : d (houseKey h) = some ⟨some ps⟩) :
    (renderPlanets d h).map PlanetLabel.dy =
      (List.range ps.length).map (fun i => if i = 0 then 0 else 12) := by
  rw [renderPlanets_present d h ps hd, List.map_map, List.enum, List.range_eq_range']
  exact enumFrom_map_fst (fun i => if i = 0 then 0 else 12) 0 ps

theorem renderPlanets_len (d : ChartData) (h : Nat) (ps : List Planet)
    (hd : d (houseKey h) = some ⟨some ps⟩) :
    (renderPlanets d h).length = ps.length := by
  rw [renderPlanets_present d h ps hd, List.length_map, List.enum_length]

/-! ### Claim theorems -/

/-- C1: for every ascendant ordinal `a` in [1,12] and house index `h` in
[0,11], the sign number of house `h` is `((a + h - 1) % 12) + 1`, lies in
[1,12], house 0 carries the ascendant's own sign, and the sequence over
`h = 0..11` is the rotation of `[1,...,12]` starting at `a`; the formula is
uniform, with no special case at the 12-to-1 wraparound. -/
theorem claim_C1_sign_for_house (a h : Nat)
    (ha : 1 ≤ a ∧ a ≤ 12) (_hh : h ≤ 11) :
    getSignNum a h = ((a + h - 1) % 12) + 1 ∧
    1 ≤ getSignNum a h ∧ getSignNum a h ≤ 12 ∧
    getSignNum a 0 = a ∧
    (List.range 12).map (getSignNum a) = ((List.range 12).map (· + 1)).rotate (a - 1) := by
  obtain ⟨ha1, ha2⟩ := ha
  refine ⟨rfl, ?_, ?_, ?_, ?_⟩
  · unfold getSignNum; omega
  · unfold getSignNum; omega
  · unfold getSignNum; omega
  · interval_cases a <;> decide

/-- Witness for C1 at the spec's wraparound example: Capricorn ascendant
(a = 10), 4th house (h = 3), whose sign is Aries (1). -/
theorem claim_C1_witness :
    ((1 ≤ 10 ∧ 10 ≤ 12) ∧ 3 ≤ 11) ∧
    (getSignNum 10 3 = ((10 + 3 - 1) % 12) + 1 ∧
     1 ≤ getSignNum 10 3 ∧ getSignNum 10 3 ≤ 12 ∧
     getSignNum 10 0 = 10 ∧
     (List.range 12).map (getSignNum 10) = ((List.range 12).map (· + 1)).rotate (10 - 1)) :=
  ⟨by decide, claim_C1_sign_for_house 10 3 (by decide) (by decide)⟩

/-- Counterexample to C2 as stated: "constructor" is not one of the twelve
recognized values, yet the property read hits the inherited
`Object.prototype.constructor`, which is truthy, so `|| 1` does not default:
the engine neither fails nor produces the Aries-ascendant sign numbers —
every house's sign-number label renders as "NaN" instead of the Aries
chart's "1". -/
theorem claim_C2_counterexample :
    ("constructor" ∉ SIGN_MAP.map Prod.fst) ∧
    signMapRead "constructor" = JSLookup.proto "constructor" ∧
    ascValueOf "constructor" ≠ AscValue.ord 1 ∧
    signNumText "constructor" 0 = "NaN" ∧
    signNumText "Aries" 0 = "1" ∧
    signNumText "constructor" 0 ≠ signNumText "Aries" 0 := by decide

/-- C2 (amended): an ascendant sign name outside the twelve recognized
`SIGN_MAP` keys that is also not an inherited `Object.prototype` member name
is defensively defaulted to ordinal 1 (Aries), so every house's sign-number
text equals the Aries-ascendant chart's; for an unrecognized name that is an
`Object.prototype` member name, the truthy inherited value survives the
`||` and every house's sign-number label renders as "NaN" — neither an
InvalidSignError nor an Aries-equivalent chart. -/
theorem claim_C2_unknown_sign_default_or_nan (s : String)
    (hs : s ∉ SIGN_MAP.map Prod.fst) :
    (s ∉ OBJECT_PROTOTYPE_KEYS →
      ascValueOf s = AscValue.ord 1 ∧ ascValueOf "Aries" = AscValue.ord 1 ∧
      ∀ h, signNumText s h = signNumText "Aries" h) ∧
    (s ∈ OBJECT_PROTOTYPE_KEYS → ∀ h, signNumText s h = "NaN") := by
  simp only [SIGN_MAP, List.map_cons, List.map_nil, List.mem_cons, List.mem_singleton,
    not_or] at hs
  have hlook : SIGN_MAP.lookup s = none := by
    have b1 : (s == "Aries") = false := beq_eq_false_iff_ne.mpr hs.1
    have b2 : (s == "Taurus") = false := beq_eq_false_iff_ne.mpr hs.2.1
    have b3 : (s == "Gemini") = false := beq_eq_false_iff_ne.mpr hs.2.2.1
    have b4 : (s == "Cancer") = false := beq_eq_false_iff_ne.mpr hs.2.2.2.1
    have b5 : (s == "Leo") = false := beq_eq_false_iff_ne.mpr hs.2.2.2.2.1
    have b6 : (s == "Virgo") = false := beq_eq_false_iff_ne.mpr hs.2.2.2.2.2.1
    have b7 : (s == "Libra") = false := beq_eq_false_iff_ne.mpr hs.2.2.2.2.2.2.1
    have b8 : (s == "Scorpio") = false := beq_eq_false_iff_ne.mpr hs.2.2.2.2.2.2.2.1
    have b9 : (s == "Sagittarius") = false := beq_eq_false_iff_ne.mpr hs.2.2.2.2.2.2.2.2.1
    have b10 : (s == "Capricorn") = false := beq_eq_false_iff_ne.mpr hs.2.2.2.2.2.2.2.2.2.1
    have b11 : (s == "Aquarius") = false := beq_eq_false_iff_ne.mpr hs.2.2.2.2.2.2.2.2.2.2.1
    have b12 : (s == "Pisces") = false := beq_eq_false_iff_ne.mpr hs.2.2.2.2.2.2.2.2.2.2.2.1
    simp [SIGN_MAP, List.lookup, b1, b2, b3, b4, b5, b6, b7, b8, b9, b10, b11, b12]
  have ha : ascValueOf "Aries" = AscValue.ord 1 := rfl
  constructor
  · intro hnp
    have hv : ascValueOf s = AscValue.ord 1 := by
      simp [ascValueOf, signMapRead, hlook, hnp]
    exact ⟨hv, ha, fun h => by simp [signNumText, hv, ha]⟩
  · intro hp h
    simp [signNumText, ascValueOf, signMapRead, hlook, hp]

/-- Witness for the amended C2 at the unrecognized name "constructor",
which is an `Object.prototype` member name, so the second branch applies
concretely and every house shows "NaN". -/
theorem claim_C2_witness :
    ("constructor" ∉ SIGN_MAP.map Prod.fst) ∧
    (("constructor" ∉ OBJECT_PROTOTYPE_KEYS →
       ascValueOf "constructor" = AscValue.ord 1 ∧
       ascValueOf "Aries" = AscValue.ord 1 ∧
       ∀ h, signNumText "constructor" h = signNumText "Aries" h) ∧
     ("constructor" ∈ OBJECT_PROTOTYPE_KEYS →
       ∀ h, signNumText "constructor" h = "NaN")) :=
  ⟨by decide, claim_C2_unknown_sign_default_or_nan "constructor" (by decide)⟩

/-- C3: when house `h` holds the ordered planet list `ps`, the rendered
labels carry the planets' display codes in list order, all share the
x-coordinate of house `h`'s planet anchor, and their absolute vertical
offsets (partial sums of the `dy` attributes) are `12 * i` for the `i`-th
planet: 0 for the first, one fixed 12-unit increment further down for each
subsequent one, hence strictly increasing. -/
theorem claim_C3_planet_stacking (d : ChartData) (h : Nat) (ps : List Planet)
    (hd : d (houseKey h) = some ⟨some ps⟩) :
    (renderPlanets d h).map PlanetLabel.text = ps.map (fun p => displayCode p.name) ∧
    (renderPlanets d h).map PlanetLabel.x =
      List.replicate ps.length (HOUSE_CENTERS.getD h ⟨0, 0⟩).x ∧
    tspanOffsets 0 ((renderPlanets d h).map PlanetLabel.dy) =
      (List.range ps.length).map (fun i => 12 * i) ∧
    (tspanOffsets 0 ((renderPlanets d h).map PlanetLabel.dy)).Pairwise (· < ·) := by
  have hoff : tspanOffsets 0 ((renderPlanets d h).map PlanetLabel.dy) =
      (List.range ps.length).map (fun i => 12 * i) := by
    rw [renderPlanets_dys d h ps hd]
    exact tspanOffsets_stacked ps.length
  refine ⟨renderPlanets_texts d h ps hd, renderPlanets_xs d h ps hd, hoff, ?_⟩
  rw [hoff]
  exact (List.pairwise_lt_range ps.length).map _ (fun a b hab => by omega)

/-- The ordered planet list Sun, Mercury, Venus from the spec's
stacking example. -/
def sunMercuryVenus : List Planet := [⟨"Sun"⟩, ⟨"Mercury"⟩, ⟨"Venus"⟩]

/-- A concrete chart-data object: house 1 holds Sun, Mercury, Venus. -/
def smvChartData : ChartData := fun k =>
  if k = "house_1" then some ⟨some sunMercuryVenus⟩ else none

/-- Witness for C3: the spec's stacking example, house 0 with
["Sun", "Mercury", "Venus"]. -/
theorem claim_C3_witness :
    (smvChartData (houseKey 0) = some ⟨some sunMercuryVenus⟩) ∧
    ((renderPlanets smvChartData 0).map PlanetLabel.text =
      sunMercuryVenus.map (fun p => displayCode p.name) ∧
     (renderPlanets smvChartData 0).map PlanetLabel.x =
      List.replicate sunMercuryVenus.length (HOUSE_CENTERS.getD 0 ⟨0, 0⟩).x ∧
     tspanOffsets 0 ((renderPlanets smvChartData 0).map PlanetLabel.dy) =
      (List.range sunMercuryVenus.length).map (fun i => 12 * i) ∧
     (tspanOffsets 0 ((renderPlanets smvChartData 0).map PlanetLabel.dy)).Pairwise
       (· < ·)) :=
  ⟨by decide, claim_C3_planet_stacking smvChartData 0 sunMercuryVenus (by decide)⟩

/-- C4: a house whose chart-data entry is missing, or present without a
planet list, renders as an empty house — no labels and no failure — and
`renderPlanets` for any other house key reads only that house's own entry,
so the rest of the chart is unaffected. -/
theorem claim_C4_missing_house (d : ChartData) (h : Nat)
    (hm : d (houseKey h) = none ∨ ∃ hd, d (houseKey h) = some hd ∧ hd.planets = none) :
    renderPlanets d h = [] ∧
    ∀ (d' : ChartData), (∀ k, k ≠ houseKey h → d' k = d k) →
      ∀ h', houseKey h' ≠ houseKey h → renderPlanets d' h' = renderPlanets d h' := by
  constructor
  · rcases hm with hm | ⟨hd, hd1, hd2⟩
    · simp [renderPlanets, hm]
    · simp [renderPlanets, hd1, hd2]
  · intro d' hagree h' hne
    unfold renderPlanets
    rw [hagree _ hne]

/-- Witness for C4: house 5 has an entry without a planet list. -/
theorem claim_C4_witness :
    ((fun k => if k = houseKey 5 then some (⟨none⟩ : HouseData) else none) (houseKey 5) = none ∨
     ∃ hd, (fun k => if k = houseKey 5 then some (⟨none⟩ : HouseData) else none) (houseKey 5) =
       some hd ∧ hd.planets = none) ∧
    (renderPlanets (fun k => if k = houseKey 5 then some ⟨none⟩ else none) 5 = [] ∧
     ∀ (d' : ChartData), (∀ k, k ≠ houseKey 5 →
        d' k = (fun k => if k = houseKey 5 then some (⟨none⟩ : HouseData) else none) k) →
      ∀ h', houseKey h' ≠ houseKey 5 →
        renderPlanets d' h' =
          renderPlanets (fun k => if k = houseKey 5 then some ⟨none⟩ else none) h') :=
  ⟨Or.inr ⟨⟨none⟩, by decide, rfl⟩,
   claim_C4_missing_house _ 5 (Or.inr ⟨⟨none⟩, by decide, rfl⟩)⟩

/-- C5: when every house entry is present with an empty planet list, the
chart renders zero planet labels in each of the twelve house containers,
while all twelve sign-number labels are still present, one per house. -/
theorem claim_C5_all_empty (d : ChartData) (s : String)
    (he : ∀ h, h < 12 → d (houseKey h) = some ⟨some []⟩) :
    (NorthIndianChart d s).houseBlocks.map HouseBlock.planets = List.replicate 12 [] ∧
    (NorthIndianChart d s).signLabels.length = 12 ∧
    (NorthIndianChart d s).signLabels.map SignLabel.num =
      (List.range 12).map (getSignNum (ascNumOf s)) := by
  refine ⟨?_, rfl, rfl⟩
  have hb : (NorthIndianChart d s).houseBlocks.map HouseBlock.planets =
      [renderPlanets d 0, renderPlanets d 1, renderPlanets d 2, renderPlanets d 3,
       renderPlanets d 4, renderPlanets d 5, renderPlanets d 6, renderPlanets d 7,
       renderPlanets d 8, renderPlanets d 9, renderPlanets d 10, renderPlanets d 11] := rfl
  have e : ∀ h, h < 12 → renderPlanets d h = [] := by
    intro h hh
    simp [renderPlanets, he h hh]
  rw [hb, e 0 (by omega), e 1 (by omega), e 2 (by omega), e 3 (by omega), e 4 (by omega),
    e 5 (by omega), e 6 (by omega), e 7 (by omega), e 8 (by omega), e 9 (by omega),
    e 10 (by omega), e 11 (by omega)]
  rfl

/-- Witness for C5 with the all-empty chart data and a Libra ascendant. -/
theorem claim_C5_witness :
    (∀ h, h < 12 → allEmptyHouses (houseKey h) = some ⟨some []⟩) ∧
    ((NorthIndianChart allEmptyHouses "Libra").houseBlocks.map HouseBlock.planets =
       List.replicate 12 [] ∧
     (NorthIndianChart allEmptyHouses "Libra").signLabels.length = 12 ∧
     (NorthIndianChart allEmptyHouses "Libra").signLabels.map SignLabel.num =
       (List.range 12).map (getSignNum (ascNumOf "Libra"))) :=
  ⟨fun _ _ => rfl, claim_C5_all_empty allEmptyHouses "Libra" (fun _ _ => rfl)⟩

/-- C6: the layout is a pure function of its input: two evaluations of the
component on identical chart data and ascendant sign yield identical
output. -/
theorem claim_C6_deterministic (d d' : ChartData) (s s' : String)
    (hd : d = d') (hs : s = s') :
    NorthIndianChart d s = NorthIndianChart d' s' := by
  rw [hd, hs]

/-- Witness for C6: two evaluations on the same concrete input agree. -/
theorem claim_C6_witness :
    (emptyChartData = emptyChartData ∧ "Aries" = "Aries") ∧
    NorthIndianChart emptyChartData "Aries" = NorthIndianChart emptyChartData "Aries" :=
  ⟨⟨rfl, rfl⟩, claim_C6_deterministic emptyChartData emptyChartData "Aries" "Aries" rfl rfl⟩

/-- C7: no per-house planet limit: a house holding any list of `n` planets
renders exactly `n` labels — none dropped, no failure — and the `i`-th
label's absolute vertical offset is `12 * i`, so the stack keeps growing
downward with `n` instead of truncating. -/
theorem claim_C7_no_planet_limit (d : ChartData) (h : Nat) (ps : List Planet)
    (hd : d (houseKey h) = some ⟨some ps⟩) :
    (renderPlanets d h).length = ps.length ∧
    tspanOffsets 0 ((renderPlanets d h).map PlanetLabel.dy) =
      (List.range ps.length).map (fun i => 12 * i) := by
  refine ⟨renderPlanets_len d h ps hd, ?_⟩
  rw [renderPlanets_dys d h ps hd]
  exact tspanOffsets_stacked ps.length

/-- Eight planets crowded into one house, more than the ~6 the spec calls
a visual-degradation threshold. -/
def eightPlanets : List Planet :=
  [⟨"Sun"⟩, ⟨"Moon"⟩, ⟨"Mars"⟩, ⟨"Mercury"⟩, ⟨"Jupiter"⟩, ⟨"Venus"⟩, ⟨"Saturn"⟩, ⟨"Rahu"⟩]

/-- A concrete chart-data object with eight planets in house 4. -/
def crowdedChartData : ChartData := fun k =>
  if k = "house_4" then some ⟨some eightPlanets⟩ else none

/-- Witness for C7 at a house with eight planets: eight labels, offsets
0, 12, ..., 84. -/
theorem claim_C7_witness :
    (crowdedChartData (houseKey 3) = some ⟨some eightPlanets⟩) ∧
    ((renderPlanets crowdedChartData 3).length = eightPlanets.length ∧
     tspanOffsets 0 ((renderPlanets crowdedChartData 3).map PlanetLabel.dy) =
       (List.range eightPlanets.length).map (fun i => 12 * i)) :=
  ⟨by decide, claim_C7_no_planet_limit crowdedChartData 3 eightPlanets (by decide)⟩

/-- C8: the display code of a planet name of any length is the name
truncated to its first two characters (all of it when shorter), produced
totally — no failure on empty or one-character names. -/
theorem claim_C8_display_code_total (name : String) :
    (displayCode name).length = min 2 name.length ∧
    (displayCode name).data = name.data.take 2 ∧
    displayCode name ++ String.mk (name.data.drop 2) = name := by
  refine ⟨?_, rfl, ?_⟩
  · show (name.data.take 2).length = min 2 name.data.length
    exact List.length_take 2 name.data
  · have happ : displayCode name ++ String.mk (name.data.drop 2) =
        String.mk (name.data.take 2 ++ name.data.drop 2) := rfl
    rw [happ, List.take_append_drop]

/-- C9: the planet anchor and the sign-number position of each house are
fixed constants of the house index: for every chart data and ascendant
sign, the rendered positions coincide with the static `HOUSE_CENTERS` and
hard-coded sign-label tables, independent of chart content. -/
theorem claim_C9_anchors_stable (d : ChartData) (s : String) :
    (NorthIndianChart d s).houseBlocks.map (fun b => (b.x, b.y)) =
      HOUSE_CENTERS.map (fun c => (c.x, c.y)) ∧
    (NorthIndianChart d s).signLabels.map (fun l => (l.x, l.y)) =
      SIGN_LABEL_POSITIONS.map (fun p => (p.x, p.y)) :=
  ⟨rfl, rfl⟩

/-- C10: the twelve rendered planet anchors and the twelve rendered
sign-number positions are each pairwise distinct and lie in the 0-100
coordinate space, for every input; the unused `SIGN_POSITIONS` table, by
contrast, repeats the point (50, 45) at its entries for houses 1 and 10. -/
theorem claim_C10_positions_distinct (d : ChartData) (s : String) :
    ((NorthIndianChart d s).houseBlocks.map (fun b => (b.x, b.y))).Pairwise (· ≠ ·) ∧
    ((NorthIndianChart d s).signLabels.map (fun l => (l.x, l.y))).Pairwise (· ≠ ·) ∧
    (∀ p ∈ (NorthIndianChart d s).houseBlocks.map (fun b => (b.x, b.y)),
      p.1 ≤ 100 ∧ p.2 ≤ 100) ∧
    (∀ p ∈ (NorthIndianChart d s).signLabels.map (fun l => (l.x, l.y)),
      p.1 ≤ 100 ∧ p.2 ≤ 100) ∧
    SIGN_POSITIONS[0]? = some ⟨50, 45, "middle"⟩ ∧
    SIGN_POSITIONS[9]? = some ⟨50, 45, "middle"⟩ := by
  have h1 : (NorthIndianChart d s).houseBlocks.map (fun b => (b.x, b.y)) =
      HOUSE_CENTERS.map (fun c => (c.x, c.y)) := rfl
  have h2 : (NorthIndianChart d s).signLabels.map (fun l => (l.x, l.y)) =
      SIGN_LABEL_POSITIONS.map (fun p => (p.x, p.y)) := rfl
  rw [h1, h2]
  refine ⟨by decide, by decide, by decide, by decide, by decide, by decide⟩

end VedicJyotish
